import Mathlib

/-!
Verification of the session orchestration engine of the TenCyclesofFate
backend (FastAPI/asyncio, Python).  The definitions below are shallow
embeddings of the corresponding Python functions:

* `applyStateUpdate`   — `game_logic._apply_state_update` (the patch engine)
* `processPlayerAction`— the admission guard / punishment resolution part of
  `game_logic.process_player_action`
* `classifyRoll`       — the outcome classification in
  `game_logic._handle_roll_request`
* `ProviderStatus.*`   — `ai_service.ProviderStatus` (circuit breaker)
* `evictLoop` / `getAiResponsePre` — the pre-provider phase (client check,
  message assembly, token-budget eviction loop) of
  `openai_client.get_ai_response`
* `livePayloadData`    — the `live_update` redaction branch of
  `websocket_manager.ConnectionManager.send_json_to_player`

Python dicts holding JSON-shaped data are modelled as association lists of
`String × JVal`; machine integers are `Int`/`Nat` (Python ints are unbounded,
so no wraparound modelling is needed); functions that can raise return
`Except`/`Option` or an explicit outcome type.  Wall-clock `datetime` values
are modelled as integer seconds.
-/

namespace TenCycles

/-- JSON-shaped values: the dynamic dict/list/str/int/bool/None data
manipulated by the Python code. -/
inductive JVal where
  | null : JVal
  | boolean : Bool → JVal
  | num : Int → JVal
  | str : String → JVal
  | arr : List JVal → JVal
  | obj : List (String × JVal) → JVal

/-- `d.get(k)` on a Python dict modelled as an association list
(first binding wins, as keys are unique in a dict). -/
def lookupKey (fs : List (String × JVal)) (k : String) : Option JVal :=
  match fs with
  | [] => none
  | (k', v) :: rest => if k' = k then some v else lookupKey rest k

/-- `d[k] = v` on a Python dict: replaces the binding in place if the key
exists (dicts keep insertion order), otherwise appends a new binding. -/
def setKey (fs : List (String × JVal)) (k : String) (v : JVal) : List (String × JVal) :=
  match fs with
  | [] => [(k, v)]
  | (k', v') :: rest => if k' = k then (k', v) :: rest else (k', v') :: setKey rest k v

/-- `key.split(".")` for one character, mirroring Python `str.split`:
`"a.b".split(".") == ["a","b"]`, `"".split(".") == [""]`.  Implemented over
the character list so that it reduces definitionally. -/
def splitCharsDot : List Char → List String
  | [] => [""]
  | c :: rest =>
    let r := splitCharsDot rest
    if c = '.' then "" :: r
    else
      match r with
      | h :: t => String.mk (c :: h.data) :: t
      | [] => [String.mk [c]]

/-- `key.split(".")` on a string. -/
def pySplitDot (k : String) : List String := splitCharsDot k.data

/-- `s.endswith("+")`: true iff the last character is `'+'`. -/
def endsWithPlus (s : String) : Bool :=
  match s.data.getLast? with
  | some c => c = '+'
  | none => false

/-- `s[:-1]`: drop the last character (identity on `""`). -/
def dropLastChar (s : String) : String := String.mk s.data.dropLast

/-- The leaf step of `_apply_state_update`: after walking to the innermost
mapping `fs`, write the final path segment.  If the segment ends with the
append marker `"+"` *and* the value already stored under the stripped key is
a list, append (extend when the new value is itself a list); otherwise
overwrite under the literal segment (including any `"+"`). -/
def applyAtLeaf (fs : List (String × JVal)) (last : String) (v : JVal) :
    List (String × JVal) :=
  if endsWithPlus last then
    match lookupKey fs (dropLastChar last) with
    | some (JVal.arr xs) =>
      match v with
      | JVal.arr ys => setKey fs (dropLastChar last) (JVal.arr (xs ++ ys))
      | _ => setKey fs (dropLastChar last) (JVal.arr (xs ++ [v]))
    | _ => setKey fs last v
  else setKey fs last v

/-- The walk of `_apply_state_update`: `temp_state = temp_state.setdefault(part, {})`
for every intermediate segment, then the leaf step.  Walking into an existing
non-dict value raises in Python (AttributeError/TypeError), modelled as
`none`. The split of a nonempty key never yields `[]`, so that case is
unreachable and also maps to `none`. -/
def setPath : List (String × JVal) → List String → JVal → Option (List (String × JVal))
  | _, [], _ => none
  | fs, [last], v => some (applyAtLeaf fs last v)
  | fs, part :: rest, v =>
    (match lookupKey fs part with
     | some (JVal.obj sub) => (setPath sub rest v).map (fun sub' => setKey fs part (JVal.obj sub'))
     | some _ => none
     | none => (setPath [] rest v).map (fun sub' => setKey fs part (JVal.obj sub')))

/-- `game_logic._apply_state_update(state, update)`: apply each entry of the
update mapping in order; an exception in any entry aborts the whole call
(`none`). -/
def applyStateUpdate (state : List (String × JVal)) (update : List (String × JVal)) :
    Option (List (String × JVal)) :=
  match update with
  | [] => some state
  | (k, v) :: rest =>
    match setPath state (pySplitDot k) v with
    | some state' => applyStateUpdate state' rest
    | none => none

/-- A role-tagged chat message, `{"role": ..., "content": ...}`. -/
structure ChatMsg where
  role : String
  content : String

/-- A pending punishment record `{"level": ..., "reason": ...}`. -/
structure Punishment where
  level : String
  reason : String

/-- The per-player session record (the fields read or written by
`process_player_action` and its guards). -/
structure GSession where
  isProcessing : Bool
  dailySuccessAchieved : Bool
  opportunitiesRemaining : Int
  isInTrial : Bool
  pendingPunishment : Option Punishment
  currentLife : Option JVal
  displayHistory : List String
  internalHistory : List ChatMsg

/-- The game-master system prompt is loaded at startup from
`prompts/game_master.txt`, a data file that is not part of the source tree;
its text plays no role in any claim, so it is kept abstract as a constant. -/
def gameMasterSystemPrompt : String := "GAME_MASTER_SYSTEM_PROMPT"

/-- Narrative appended on resolving a `轻度亵渎` (minor) pending punishment
(`game_logic.process_player_action`). -/
def minorPunishmentNarrative : String := "【天机示警】
虚空之中，传来一声若有若无的叹息。汝方才之言，如投石入镜湖，虽微澜泛起，却已扰动了既定的天机轨迹。
一道无形的目光自九天垂落，淡漠地注视着你。你感到神魂一凛，仿佛被看穿了所有心思。
“蝼蚁窥天，其心可悯，其行当止。”
天道之音并非雷霆震怒，而是如万古不化的玄冰，不带丝毫情感。话音落下，你眼前的世界开始如水墨画般褪色、模糊，最终化为一片虚无。你此生的所有经历、记忆、乃至刚刚生出的一丝妄念，都随之烟消云散。
此非惩戒，乃是勘误。为免因果错乱，此段命途，就此抹去。

> 天道已修正异常，你的当前试炼结束。（缘由：汝之言行，已有僭越身份、扭曲命数之嫌。）善用下一次机缘，恪守本心，方能行稳致远。
"

/-- Narrative appended on resolving a `重度渎道` (severe) pending punishment
(`game_logic.process_player_action`). -/
def severePunishmentNarrative : String := "【天道斥逐】
轰隆！
这一次，并非雷鸣，而是整个天地法则都在为你公然的挑衅而震颤。你脚下的大地化为虚无，周遭的星辰黯淡无光。时空在你面前呈现出最原始、最混乱的姿态。
一道蕴含着无上威严的金色法旨在虚空中展开，上面用大道符文烙印着两个字：【渎道】。
“汝已非求道，而是乱道。”
天道威严的声音响彻神魂，每一个字都化作法则之链，将你牢牢锁住。“汝之行径，已触及此界根本。为护天地秩序，今将汝放逐于时空乱流之中，以儆效尤。”
“一日之内，此界之门将对汝关闭。静思己过，或有再入轮回之机。若执迷不悟，再犯天条，必将汝之真灵从光阴长河中彻底抹去，神魂俱灭，永不超生。”
金光散去，你已被抛入无尽的混沌。

> 你因严重违规，触发【天道斥逐】，被暂时剥夺试炼资格。（缘由：汝之行径，已涉嫌掌控天道、颠覆法则。）一日之后，方可再次踏入轮回之门。
"

/-- The three action strings that can start a trial
(`game_logic.process_player_action`, lines 502–506). -/
def startTrialActions : List String := ["开始试炼", "开启下一次试炼", "开始第一次试炼"]

/-- The outcome of one call to `process_player_action`. -/
inductive ActionResult where
  /-- A guard returned early: the session record is untouched, no turn task
  is spawned, and no user-visible error is produced (only a log entry). -/
  | rejected : ActionResult
  /-- A pending punishment was resolved and saved; the requested action is
  dropped and no turn task is spawned, so no generation call is made. -/
  | punished : GSession → ActionResult
  /-- A pending punishment with an unknown level reaches
  `new_state["display_history"].append(punishment_narrative)` with
  `punishment_narrative` unbound, raising `NameError`. -/
  | raised : ActionResult
  /-- All guards passed: `is_processing` is set and saved, and the detached
  turn task `_process_player_action_async` is spawned. -/
  | admitted : GSession → ActionResult

/-- `is_starting_trial`: the action is one of the trial-starting strings and
the session is not already in a trial. -/
def isStartingTrial (s : GSession) (action : String) : Prop :=
  action ∈ startTrialActions ∧ ¬ s.isInTrial

instance (s : GSession) (action : String) : Decidable (isStartingTrial s action) := by
  unfold isStartingTrial
  infer_instance

/-- `game_logic.process_player_action(current_user, action)` for an existing
session: the admission guards, punishment resolution, and the final
check-and-set of `is_processing`.  In asyncio this whole function runs
without a suspension point (`get_session` and `save_session` contain no
internal `await`), so concurrent invocations for one player execute it
atomically, one after the other. -/
def processPlayerAction (s : GSession) (action : String) : ActionResult :=
  if s.isProcessing then ActionResult.rejected
  else if s.dailySuccessAchieved then ActionResult.rejected
  else if s.opportunitiesRemaining ≤ 0 ∧ ¬ s.isInTrial then ActionResult.rejected
  else
    match s.pendingPunishment with
    | some p =>
      if p.level = "轻度亵渎" then
        ActionResult.punished
          { s with isInTrial := false
                   currentLife := none
                   internalHistory := [⟨"system", gameMasterSystemPrompt⟩]
                   pendingPunishment := none
                   displayHistory := s.displayHistory ++ [minorPunishmentNarrative] }
      else if p.level = "重度渎道" then
        ActionResult.punished
          { s with dailySuccessAchieved := true
                   isInTrial := false
                   currentLife := none
                   opportunitiesRemaining := -10
                   pendingPunishment := none
                   displayHistory := s.displayHistory ++ [severePunishmentNarrative] }
      else ActionResult.raised
    | none =>
      if isStartingTrial s action ∧ s.opportunitiesRemaining ≤ 0 then ActionResult.rejected
      else if ¬ isStartingTrial s action ∧ ¬ s.isInTrial then ActionResult.rejected
      else ActionResult.admitted { s with isProcessing := true }

/-- Run a burst of concurrent actions for one player.  Each invocation of
`process_player_action` executes atomically (no suspension point, see
`processPlayerAction`), so any interleaving is equivalent to some sequential
order of the calls; no turn task finishes in between (the task body starts
with real awaits), so `is_processing` is never cleared during the burst.
Returns the final session and the number of admitted turn tasks. -/
def runActions : GSession → List String → GSession × Nat
  | s, [] => (s, 0)
  | s, a :: rest =>
    match processPlayerAction s a with
    | ActionResult.admitted s' => ((runActions s' rest).1, (runActions s' rest).2 + 1)
    | ActionResult.punished s' => runActions s' rest
    | _ => runActions s rest

/-- The roll-outcome classification of `game_logic._handle_roll_request`:
the Python float thresholds `sides * 0.05` and `sides * 0.96` are modelled
exactly over `ℚ` (for the die sizes of the claims, e.g. `sides = 100`, the
float products are exact, so the classifications coincide). -/
def classifyRoll (result target sides : ℕ) : String :=
  if (result : ℚ) ≤ (sides : ℚ) * (5 / 100) then "大成功"
  else if result ≤ target then "成功"
  else if (result : ℚ) ≥ (sides : ℚ) * (96 / 100) then "大失败"
  else "失败"

/-- `ai_service.ProviderStatus`: per-provider rolling counters.  `datetime`
values are modelled as integer seconds. -/
structure ProviderStatus where
  failureCount : ℕ
  lastFailureTime : Option ℤ
  lastSuccessTime : Option ℤ
  isValidated : Bool
  consecutiveFailures : ℕ

/-- The freshly constructed `ProviderStatus()`. -/
def ProviderStatus.init : ProviderStatus :=
  { failureCount := 0, lastFailureTime := none, lastSuccessTime := none,
    isValidated := false, consecutiveFailures := 0 }

/-- `ProviderStatus.record_success` at time `now`:
`failure_count = max(0, failure_count - 1)` (ℕ subtraction), consecutive
failures cleared, success time stamped. -/
def ProviderStatus.recordSuccess (s : ProviderStatus) (now : ℤ) : ProviderStatus :=
  { s with failureCount := s.failureCount - 1
           consecutiveFailures := 0
           lastSuccessTime := some now }

/-- `ProviderStatus.record_failure` at time `now`. -/
def ProviderStatus.recordFailure (s : ProviderStatus) (now : ℤ) : ProviderStatus :=
  { s with failureCount := s.failureCount + 1
           consecutiveFailures := s.consecutiveFailures + 1
           lastFailureTime := some now }

/-- The cooldown `timedelta(minutes=5)` in seconds. -/
def cooldownSeconds : ℤ := 300

/-- `ProviderStatus.is_available` evaluated at time `now`.  It both returns
the availability flag and (on a successful cooldown check) mutates the
status, resetting `consecutive_failures`; so it is modelled as returning the
flag together with the updated status. -/
def ProviderStatus.isAvailable (s : ProviderStatus) (now : ℤ) : Bool × ProviderStatus :=
  if s.consecutiveFailures ≥ 3 then
    match s.lastFailureTime with
    | some t =>
      if now - t > cooldownSeconds then (true, { s with consecutiveFailures := 0 })
      else (false, s)
    | none => (false, s)
  else (true, s)

/-- Python exception kinds raised by the modelled code paths. -/
inductive PyErr where
  | valueError : PyErr
  | typeError : PyErr

/-- The token-budget heuristic of `openai_client.get_ai_response`
(`total_tokens > 100000`). -/
def tokenBudget : ℕ := 100000

/-- The eviction-attempt cap `_max_loop = 10000`. -/
def evictionCap : ℕ := 10000

/-- `random.randint(a, b)`: raises `ValueError` when the range is empty,
otherwise returns a value in `[a, b]` chosen by the random source, which is
modelled by the draw `r` supplied by an oracle. -/
def pyRandint (a b : ℤ) (r : ℕ) : Except PyErr ℤ :=
  if b < a then Except.error PyErr.valueError
  else Except.ok (a + (r : ℤ) % (b - a + 1))

/-- One `while` loop of `get_ai_response` (lines 125–135): while the token
count exceeds the budget and fuel remains, draw
`random_id = random.randint(1, (len(history) - 1) // 2)` (Python floor
division, hence `Int.fdiv`), subtract that message's content length from the
counter and pop it from the history.  After the loop, `if _max_loop == 0`
the call raises `ValueError`.  The oracle supplies the random draws. -/
def evictLoop (oracle : ℕ → ℕ) : ℕ → List ChatMsg → ℕ → Except PyErr (List ChatMsg)
  | 0, _, _ => Except.error PyErr.valueError
  | fuel + 1, history, total =>
    if tokenBudget < total then
      match pyRandint 1 (((history.length : ℤ) - 1).fdiv 2) (oracle (fuel + 1)) with
      | Except.error e => Except.error e
      | Except.ok i =>
        evictLoop oracle fuel (history.eraseIdx i.toNat)
          (total - (history.getD i.toNat (ChatMsg.mk "" "")).content.length)
    else Except.ok history

/-- The possible outcomes of the pre-provider phase of `get_ai_response`. -/
inductive PrePhase where
  /-- The function `return`ed an error-prefixed string without attempting a
  provider call (only the missing-client path does this). -/
  | returnedError : String → PrePhase
  /-- An exception escaped `get_ai_response` to its caller. -/
  | raised : PyErr → PrePhase
  /-- The retry/provider loop is reached with the given `messages` payload
  and the (possibly evicted) `history` list.  `messages` was built before
  the eviction loop and is not shrunk by it. -/
  | proceed : List ChatMsg → List ChatMsg → PrePhase

/-- The assembled `messages` list: the history (if any) followed by the
user prompt message. -/
def assembleMessages (prompt : String) (history : Option (List ChatMsg)) : List ChatMsg :=
  history.getD [] ++ [ChatMsg.mk "user" prompt]

/-- `sum(len(m["content"]) for m in messages)` for the assembled messages. -/
def totalTokens (prompt : String) (history : Option (List ChatMsg)) : ℕ :=
  ((assembleMessages prompt history).map (fun m => m.content.length)).sum

/-- `openai_client.get_ai_response`, lines 114–135: the client check, message
assembly, and token-budget eviction, up to the point where the provider
retry loop would start.  When the budget is exceeded and `history` is
`None`, the loop body evaluates `len(history)` and raises `TypeError`. -/
def getAiResponsePre (clientInitialized : Bool) (prompt : String)
    (history : Option (List ChatMsg)) (oracle : ℕ → ℕ) : PrePhase :=
  if ¬ clientInitialized then
    PrePhase.returnedError "错误：OpenAI客户端未初始化。请在 backend/.env 文件中正确设置您的 OPENAI_API_KEY。"
  else if tokenBudget < totalTokens prompt history then
    match history with
    | none => PrePhase.raised PyErr.typeError
    | some h =>
      match evictLoop oracle evictionCap h (totalTokens prompt history) with
      | Except.error e => PrePhase.raised e
      | Except.ok h' => PrePhase.proceed (assembleMessages prompt history) h'
  else PrePhase.proceed (assembleMessages prompt history) (history.getD [])

/-- Does the character list `l` start with the character list `pat`? -/
def listStartsWith : List Char → List Char → Bool
  | _, [] => true
  | [], _ :: _ => false
  | a :: as, b :: bs => a = b && listStartsWith as bs

/-- Python `str.strip()`: remove whitespace from both ends. -/
def pyStrip (s : String) : String :=
  String.mk (((s.data.dropWhile Char.isWhitespace).reverse.dropWhile Char.isWhitespace).reverse)

/-- `msg.strip().startswith("> ")`: the filter predicate applied to each
display-history line of a `live_update` payload. -/
def isPlayerInputLine (m : String) : Bool :=
  listStartsWith (pyStrip m).data "> ".data

/-- Python `pat in s` (substring containment). -/
def strContainsSub (s pat : String) : Bool :=
  (List.range (s.data.length + 1)).any (fun k => listStartsWith (s.data.drop k) pat.data)

/-- Python `s.replace(pat, rep)` on character lists: replace every
non-overlapping occurrence, scanning left to right.  The fuel argument (the
length of the scanned list at the top call) makes the recursion structural;
each step consumes at least one character. -/
def replaceChars (pat rep : List Char) : ℕ → List Char → List Char
  | _, [] => []
  | 0, l => l
  | fuel + 1, c :: rest =>
    if pat ≠ [] ∧ listStartsWith (c :: rest) pat then
      rep ++ replaceChars pat rep fuel ((c :: rest).drop pat.length)
    else c :: replaceChars pat rep fuel rest

/-- Python `s.replace(pat, rep)`. -/
def pyReplace (s pat rep : String) : String :=
  String.mk (replaceChars pat.data rep.data s.data.length s.data)

/-- `f"{full_code[:1]}...{full_code[-1:]}"`: the mask shown to spectators. -/
def maskCode (c : String) : String :=
  String.mk (c.data.take 1) ++ "..." ++
    (match c.data.getLast? with
     | some ch => String.mk [ch]
     | none => "")

/-- The slice of the session record that
`websocket_manager.ConnectionManager.send_json_to_player` reads when it
builds a `live_update` payload. -/
structure SessionView where
  displayHistory : List String
  currentLife : JVal
  redemptionCode : Option String
  internalHistory : List ChatMsg

/-- The display-history list placed in a spectator's `live_update` payload
(lines 37–64 of `websocket_manager.py`): lines whose stripped text starts
with `"> "` are dropped; then, when the session holds a (truthy, i.e.
non-empty) redemption code and the filtered list is nonempty, the code is
replaced by its mask in the **last** line only, and only if it occurs there. -/
def filteredDisplayHistory (s : SessionView) : List String :=
  s.displayHistory.filter (fun m => ! isPlayerInputLine m)

/-- Assembly of the payload display history: the filtered lines, with the
masking step applied to the last remaining line when a truthy redemption
code is present. -/
def payloadDisplayHistory (s : SessionView) : List String :=
  match s.redemptionCode with
  | some code =>
    if code ≠ "" ∧ filteredDisplayHistory s ≠ [] then
      (filteredDisplayHistory s).dropLast ++
        [if strContainsSub ((filteredDisplayHistory s).getLastD "") code
         then pyReplace ((filteredDisplayHistory s).getLastD "") code (maskCode code)
         else (filteredDisplayHistory s).getLastD ""]
    else filteredDisplayHistory s
  | none => filteredDisplayHistory s

/-- The `"data"` dict of the `live_update` payload: exactly the two keys
`display_history` and `current_life` assembled by `send_json_to_player`. -/
def livePayloadData (s : SessionView) : List (String × JVal) :=
  [("display_history", JVal.arr ((payloadDisplayHistory s).map JVal.str)),
   ("current_life", s.currentLife)]

/-! ## Helper lemmas -/

theorem processing_rejected (s : GSession) (a : String) (h : s.isProcessing = true) :
    processPlayerAction s a = ActionResult.rejected := by
  simp [processPlayerAction, h]

theorem admitted_isProcessing {s : GSession} {a : String} {s' : GSession}
    (h : processPlayerAction s a = ActionResult.admitted s') : s'.isProcessing = true := by
  unfold processPlayerAction at h
  repeat' split at h
  all_goals try exact ActionResult.noConfusion h
  injection h with h2
  rw [← h2]

theorem runActions_processing (s : GSession) (l : List String) (h : s.isProcessing = true) :
    runActions s l = (s, 0) := by
  induction l with
  | nil => rfl
  | cons a rest ih =>
    rw [runActions, processing_rejected s a h]
    exact ih

theorem runActions_le_one (s : GSession) (l : List String) : (runActions s l).2 ≤ 1 := by
  induction l generalizing s with
  | nil => exact Nat.zero_le 1
  | cons a rest ih =>
    cases hpa : processPlayerAction s a with
    | rejected => rw [runActions, hpa]; exact ih s
    | raised => rw [runActions, hpa]; exact ih s
    | punished s' => rw [runActions, hpa]; exact ih s'
    | admitted s' =>
      rw [runActions, hpa]
      have h0 : runActions s' rest = (s', 0) :=
        runActions_processing s' rest (admitted_isProcessing hpa)
      show ((runActions s' rest).1, (runActions s' rest).2 + 1).2 ≤ 1
      rw [h0]

theorem setPath_singleton (fs : List (String × JVal)) (last : String) (v : JVal) :
    setPath fs [last] v = some (applyAtLeaf fs last v) := rfl

/-! ## Claim theorems -/

/-- C1: for every player, at most one turn task is admitted at any instant:
if `is_processing` is true, `process_player_action` returns without admitting
the action or spawning a turn task; and of any burst of concurrent actions
for the same player (which execute the atomic guard in some sequential
order, `runActions`), at most one is admitted and the rest are turned away
without a turn task. -/
theorem c1_single_flight (s : GSession) (a : String) (l : List String) :
    (s.isProcessing = true → processPlayerAction s a = ActionResult.rejected) ∧
    (runActions s l).2 ≤ 1 :=
  ⟨processing_rejected s a, runActions_le_one s l⟩

theorem c1_single_flight_witness :
    processPlayerAction
      { isProcessing := true, dailySuccessAchieved := false, opportunitiesRemaining := 10,
        isInTrial := true, pendingPunishment := none, currentLife := none,
        displayHistory := [], internalHistory := [] } "破碎虚空" = ActionResult.rejected ∧
    (runActions
      { isProcessing := false, dailySuccessAchieved := false, opportunitiesRemaining := 10,
        isInTrial := false, pendingPunishment := none, currentLife := none,
        displayHistory := [], internalHistory := [] }
      ["开始试炼", "探索四周", "打坐修炼"]).2 ≤ 1 :=
  ⟨(c1_single_flight _ "破碎虚空" []).1 rfl, (c1_single_flight _ "" _).2⟩

/-- C2 counterexample: a session whose `pending_punishment` has level
`重度渎道` but whose `is_processing` flag is still set is rejected by the
first guard: the punishment is *not* resolved, `daily_success_achieved`
stays false and `opportunities_remaining` stays 10 (the claim demands
`daily_success_achieved = true` and `opportunities_remaining = -10` for
*every* such session). -/
theorem c2_severe_punishment_counterexample :
    processPlayerAction
      { isProcessing := true, dailySuccessAchieved := false, opportunitiesRemaining := 10,
        isInTrial := true, pendingPunishment := some ⟨"重度渎道", "扰动天机"⟩,
        currentLife := none, displayHistory := [], internalHistory := [] } "继续" =
      ActionResult.rejected ∧
    (∀ s' : GSession, ActionResult.rejected ≠ ActionResult.punished s') := by
  exact ⟨rfl, fun s' h => ActionResult.noConfusion h⟩

/-- C2 (amended): for every session whose `pending_punishment` has level
`重度渎道` **and which passes the entry guards** (not processing, day not
complete, and opportunities remaining positive or in a trial), processing
any action resolves the punishment instead of the requested action: it sets
`daily_success_achieved` to true, `opportunities_remaining` to -10,
`is_in_trial` to false, clears `pending_punishment`, and makes no
generation call (the result is `punished`, never `admitted`, and only an
admitted action spawns the turn task that calls the provider). -/
theorem c2_severe_punishment_amended (s : GSession) (a reason : String)
    (hproc : s.isProcessing = false) (hday : s.dailySuccessAchieved = false)
    (hopp : ¬ (s.opportunitiesRemaining ≤ 0 ∧ ¬ s.isInTrial))
    (hpun : s.pendingPunishment = some ⟨"重度渎道", reason⟩) :
    processPlayerAction s a =
      ActionResult.punished
        { s with dailySuccessAchieved := true
                 isInTrial := false
                 currentLife := none
                 opportunitiesRemaining := -10
                 pendingPunishment := none
                 displayHistory := s.displayHistory ++ [severePunishmentNarrative] } := by
  have hopp' : s.opportunitiesRemaining ≤ 0 → s.isInTrial = true := by
    intro hle
    by_contra hb
    exact hopp ⟨hle, by simpa using hb⟩
  unfold processPlayerAction
  rw [hproc, hpun]
  simp [hday, hopp']
  exact hopp'

theorem c2_severe_punishment_amended_witness :
    processPlayerAction
      { isProcessing := false, dailySuccessAchieved := false, opportunitiesRemaining := 10,
        isInTrial := true, pendingPunishment := some ⟨"重度渎道", "扰动天机"⟩,
        currentLife := none, displayHistory := [], internalHistory := [] } "破碎虚空" =
      ActionResult.punished
        { isProcessing := false, dailySuccessAchieved := true, opportunitiesRemaining := -10,
          isInTrial := false, pendingPunishment := none, currentLife := none,
          displayHistory := [severePunishmentNarrative], internalHistory := [] } := by
  exact c2_severe_punishment_amended _ "破碎虚空" "扰动天机" rfl rfl (by simp) rfl

/-- C3: the roll classification of `_handle_roll_request` follows the fixed
threshold cascade in this order — critical success at or below 5% of the
die size (checked first, so independent of the target), then success at or
below the target, then critical failure at or above 96% of the die size,
otherwise failure; in particular with `sides = 100` a result of 5 is a
critical success and (whenever the target leaves the branch reachable,
`target < 96`) a result of 96 is a critical failure. -/
theorem c3_roll_classification :
    (∀ r t s : ℕ,
      ((r : ℚ) ≤ (s : ℚ) * (5 / 100) → classifyRoll r t s = "大成功") ∧
      (¬ ((r : ℚ) ≤ (s : ℚ) * (5 / 100)) → r ≤ t → classifyRoll r t s = "成功") ∧
      (¬ ((r : ℚ) ≤ (s : ℚ) * (5 / 100)) → ¬ (r ≤ t) → (r : ℚ) ≥ (s : ℚ) * (96 / 100) →
        classifyRoll r t s = "大失败") ∧
      (¬ ((r : ℚ) ≤ (s : ℚ) * (5 / 100)) → ¬ (r ≤ t) → ¬ ((r : ℚ) ≥ (s : ℚ) * (96 / 100)) →
        classifyRoll r t s = "失败")) ∧
    (∀ t : ℕ, classifyRoll 5 t 100 = "大成功") ∧
    (∀ t : ℕ, t < 96 → classifyRoll 96 t 100 = "大失败") := by
  refine ⟨fun r t s => ⟨?_, ?_, ?_, ?_⟩, ?_, ?_⟩
  · intro h1; simp [classifyRoll, h1]
  · intro h1 h2; simp [classifyRoll, h1, h2]
  · intro h1 h2 h3; simp [classifyRoll, h1, h2, h3]
  · intro h1 h2 h3; simp [classifyRoll, h1, h2, h3]
  · intro t
    unfold classifyRoll
    rw [if_pos (by norm_num)]
  · intro t ht
    unfold classifyRoll
    rw [if_neg (by norm_num), if_neg (by omega), if_pos (by norm_num)]

theorem c3_roll_classification_witness :
    classifyRoll 5 50 100 = "大成功" ∧ classifyRoll 96 50 100 = "大失败" :=
  ⟨c3_roll_classification.2.1 50, c3_roll_classification.2.2 50 (by norm_num)⟩

/-- C4: the patch engine walks/creates intermediate mapping levels on dotted
keys and appends/extends on the `+` marker: `{"a.b": 1}` on `{}` yields the
nested `{"a": {"b": 1}}`; `{"list+": 5}` on `{"list": [1,2]}` appends to
`[1,2,5]`; `{"list+": [5,6]}` extends to `[1,2,5,6]` rather than nesting a
list inside the list. -/
theorem c4_patch_examples :
    applyStateUpdate [] [("a.b", JVal.num 1)]
      = some [("a", JVal.obj [("b", JVal.num 1)])] ∧
    applyStateUpdate [("list", JVal.arr [JVal.num 1, JVal.num 2])] [("list+", JVal.num 5)]
      = some [("list", JVal.arr [JVal.num 1, JVal.num 2, JVal.num 5])] ∧
    applyStateUpdate [("list", JVal.arr [JVal.num 1, JVal.num 2])]
        [("list+", JVal.arr [JVal.num 5, JVal.num 6])]
      = some [("list", JVal.arr [JVal.num 1, JVal.num 2, JVal.num 5, JVal.num 6])] :=
  ⟨rfl, rfl, rfl⟩

/-- C5: an action arriving while `is_processing` is set or while the day is
already complete is silently dropped: `process_player_action` returns at a
guard (`rejected`), which by construction leaves the session record
untouched, spawns no turn task, and produces no user-visible error (the
Python code only writes a log entry before `return`). -/
theorem c5_guard_silent_drop (s : GSession) (a : String)
    (h : s.isProcessing = true ∨ s.dailySuccessAchieved = true) :
    processPlayerAction s a = ActionResult.rejected := by
  cases h with
  | inl h => simp [processPlayerAction, h]
  | inr h =>
    by_cases hp : s.isProcessing
    · simp [processPlayerAction, hp]
    · simp [processPlayerAction, hp, h]

theorem c5_guard_silent_drop_witness :
    processPlayerAction
      { isProcessing := false, dailySuccessAchieved := true, opportunitiesRemaining := 10,
        isInTrial := true, pendingPunishment := none, currentLife := none,
        displayHistory := [], internalHistory := [] } "探索四周" = ActionResult.rejected :=
  c5_guard_silent_drop _ "探索四周" (Or.inr rfl)

/-- C6: the circuit breaker of `ai_service.ProviderStatus`: after three
consecutive recorded failures the provider is unavailable while no more
than the 5-minute cooldown has passed since the last failure; once the
cooldown has elapsed, `is_available` permits one more attempt regardless of
the prior `failure_count` (and resets the consecutive-failure counter);
`record_failure` re-stamps `last_failure_time`, resetting the cooldown
clock; and `record_success` clears the consecutive-failure counter. -/
theorem c6_circuit_breaker (st : ProviderStatus) (t1 t2 t3 now : ℤ) :
    (¬ (cooldownSeconds < now - t3) →
      ((((st.recordFailure t1).recordFailure t2).recordFailure t3).isAvailable now).1 = false) ∧
    (cooldownSeconds < now - t3 →
      ((((st.recordFailure t1).recordFailure t2).recordFailure t3).isAvailable now).1 = true ∧
      ((((st.recordFailure t1).recordFailure t2).recordFailure t3).isAvailable
          now).2.consecutiveFailures = 0) ∧
    (st.recordFailure t3).lastFailureTime = some t3 ∧
    (st.recordSuccess now).consecutiveFailures = 0 := by
  refine ⟨?_, ?_, rfl, rfl⟩
  · intro h
    simp [ProviderStatus.isAvailable, ProviderStatus.recordFailure, h]
  · intro h
    constructor
    · simp [ProviderStatus.isAvailable, ProviderStatus.recordFailure, h]
    · simp [ProviderStatus.isAvailable, ProviderStatus.recordFailure, h]

theorem c6_circuit_breaker_witness :
    ((((ProviderStatus.init.recordFailure 10).recordFailure 20).recordFailure 30).isAvailable
        200).1 = false ∧
    ((((ProviderStatus.init.recordFailure 10).recordFailure 20).recordFailure 30).isAvailable
        340).1 = true :=
  ⟨(c6_circuit_breaker ProviderStatus.init 10 20 30 200).1 (by norm_num [cooldownSeconds]),
   ((c6_circuit_breaker ProviderStatus.init 10 20 30 340).2.1
     (by norm_num [cooldownSeconds])).1⟩

/-- C9: a patch entry whose final segment ends with `+` appends only when
the value already stored under the stripped key is a list; otherwise
(stripped key absent or holding a non-list) the value is written unchanged
under the literal key including the `+`, and no list is created. -/
theorem c9_append_requires_list (state : List (String × JVal)) (k : String) (v : JVal)
    (hplus : endsWithPlus k = true)
    (hsplit : pySplitDot k = [k])
    (hnl : ∀ xs, lookupKey state (dropLastChar k) ≠ some (JVal.arr xs)) :
    applyStateUpdate state [(k, v)] = some (setKey state k v) := by
  unfold applyStateUpdate
  rw [hsplit, setPath_singleton]
  show applyStateUpdate (applyAtLeaf state k v) [] = some (setKey state k v)
  unfold applyStateUpdate
  unfold applyAtLeaf
  rw [if_pos hplus]
  cases hlk : lookupKey state (dropLastChar k) with
  | none => rfl
  | some jv =>
    cases jv with
    | arr xs => exact absurd hlk (hnl xs)
    | null => rfl
    | boolean b => rfl
    | num n => rfl
    | str s => rfl
    | obj fs => rfl

theorem c9_append_requires_list_witness :
    applyStateUpdate [("list", JVal.num 7)] [("list+", JVal.num 5)]
      = some [("list", JVal.num 7), ("list+", JVal.num 5)] ∧
    applyStateUpdate [] [("list+", JVal.num 5)] = some [("list+", JVal.num 5)] := by
  constructor
  · rw [c9_append_requires_list [("list", JVal.num 7)] "list+" (JVal.num 5) rfl rfl
      (fun xs h => by injection h with h2; exact JVal.noConfusion h2)]
    rfl
  · rw [c9_append_requires_list [] "list+" (JVal.num 5) rfl rfl
      (fun xs h => Option.noConfusion h)]
    rfl

/-! ## Helpers for the eviction-loop claims -/

/-- A content string of 100001 characters, enough to exceed the token
budget on its own. -/
def longStr : String := String.mk (List.replicate 100001 'a')

theorem longStr_len : longStr.length = 100001 := by
  show (String.mk (List.replicate 100001 'a')).length = 100001
  rw [String.length_mk, List.length_replicate]

/-- A single over-budget history message. -/
def longMsg : ChatMsg := ChatMsg.mk "user" longStr

theorem longMsg_len : longMsg.content.length = 100001 := by
  have h : longMsg.content = longStr := rfl
  rw [h, longStr_len]

theorem totalTokens_some (p : String) (h : List ChatMsg) :
    totalTokens p (some h) = (h.map (fun m => m.content.length)).sum + p.length := by
  simp [totalTokens, assembleMessages]

theorem totalTokens_none (p : String) : totalTokens p none = p.length := by
  simp [totalTokens, assembleMessages]

theorem pyRandint_emptyRange (b : ℤ) (r : ℕ) (hb : b < 1) :
    pyRandint 1 b r = Except.error PyErr.valueError := by
  simp [pyRandint, hb]

theorem pyRandint_ok_one_le (b : ℤ) (r : ℕ) (i : ℤ)
    (h : pyRandint 1 b r = Except.ok i) : 1 ≤ i := by
  unfold pyRandint at h
  split at h
  · exact Except.noConfusion h
  · rename_i hb
    injection h with h2
    have hmod : 0 ≤ (r : ℤ) % (b - 1 + 1) := Int.emod_nonneg _ (by omega)
    linarith [h2, hmod]

theorem head?_eraseIdx_pos {α : Type} (l : List α) (k : ℕ) (hk : 1 ≤ k) :
    (l.eraseIdx k).head? = l.head? := by
  cases l with
  | nil => simp [List.eraseIdx]
  | cons x xs =>
    cases k with
    | zero => omega
    | succ n => simp [List.eraseIdx]

theorem evictLoop_shortHistory (oracle : ℕ → ℕ) (fuel : ℕ) (h : List ChatMsg) (total : ℕ)
    (hfuel : fuel ≠ 0) (hover : tokenBudget < total) (hlen : h.length < 3) :
    evictLoop oracle fuel h total = Except.error PyErr.valueError := by
  match fuel, hfuel with
  | n + 1, _ =>
    rw [evictLoop]
    have hb : (((h.length : ℤ) - 1).fdiv 2) < 1 := by
      interval_cases hl : h.length <;> decide
    rw [if_pos hover, pyRandint_emptyRange _ _ hb]

theorem evictLoop_ok_head (oracle : ℕ → ℕ) (fuel : ℕ) (h h' : List ChatMsg) (total : ℕ)
    (hok : evictLoop oracle fuel h total = Except.ok h') : h'.head? = h.head? := by
  induction fuel generalizing h total with
  | zero => simp [evictLoop] at hok
  | succ n ih =>
    rw [evictLoop] at hok
    by_cases hc : tokenBudget < total
    · rw [if_pos hc] at hok
      cases hr : pyRandint 1 (((h.length : ℤ) - 1).fdiv 2) (oracle (n + 1)) with
      | error e => rw [hr] at hok; simp at hok
      | ok i =>
        rw [hr] at hok
        have hstep := ih (h.eraseIdx i.toNat)
          (total - (h.getD i.toNat (ChatMsg.mk "" "")).content.length) hok
        have h1le : 1 ≤ i := pyRandint_ok_one_le _ _ _ hr
        rw [hstep, head?_eraseIdx_pos h i.toNat (by omega)]
    · rw [if_neg hc] at hok
      injection hok with hh
      rw [hh]

theorem mem_getLastD {α : Type} (l : List α) (d : α) (h : l ≠ []) : l.getLastD d ∈ l := by
  induction l with
  | nil => exact absurd rfl h
  | cons a as ih =>
    cases as with
    | nil => simp [List.getLastD]
    | cons b bs =>
      rw [List.getLastD_cons]
      right
      exact ih (by simp)

/-! ## Eviction-loop claim theorems -/

/-- C7 counterexample: a two-message history whose content exceeds the token
budget.  `get_ai_response` neither evicts until under budget nor surfaces an
error string: the eviction draw `random.randint(1, (2-1)//2) = randint(1, 0)`
raises `ValueError` out of the call (the claim requires the overflow path to
surface as an error string rather than an uncaught exception). -/
theorem c7_eviction_counterexample :
    getAiResponsePre true "行动" (some [ChatMsg.mk "system" "你是司命星君", longMsg])
      (fun _ => 0) = PrePhase.raised PyErr.valueError := by
  have h1 : (ChatMsg.mk "system" "你是司命星君").content.length = 6 := rfl
  have htot : totalTokens "行动" (some [ChatMsg.mk "system" "你是司命星君", longMsg]) = 100009 := by
    rw [totalTokens_some, List.map_cons, List.map_cons, List.map_nil, List.sum_cons,
      List.sum_cons, List.sum_nil, h1, longMsg_len]
    rw [show ("行动".length : ℕ) = 2 from rfl]
    norm_num
  unfold getAiResponsePre
  rw [htot]
  rw [if_neg (by decide), if_pos (by decide)]
  rfl

/-- C7 (amended): whenever the accumulated message-content size of history
plus prompt exceeds the token budget, `get_ai_response` evicts history
entries at random indices drawn from `[1, (len-1)//2]` — never index 0, the
system message, so any successfully evicted history keeps its first message —
until the running counter is no longer above budget; if the eviction cap is
exhausted, or the random range is empty because the history has fewer than
three messages, the call raises `ValueError` out of `get_ai_response` rather
than returning an error-prefixed string (with the client initialized, no
token-overflow path returns an error string; only the missing-client check
does).  When the total is within budget no eviction happens at all. -/
theorem c7_eviction_amended :
    (∀ (p : String) (h : Option (List ChatMsg)) (oracle : ℕ → ℕ),
      ¬ tokenBudget < totalTokens p h →
      getAiResponsePre true p h oracle = PrePhase.proceed (assembleMessages p h) (h.getD [])) ∧
    (∀ (oracle : ℕ → ℕ) (fuel : ℕ) (h h' : List ChatMsg) (total : ℕ),
      evictLoop oracle fuel h total = Except.ok h' → h'.head? = h.head?) ∧
    (∀ (oracle : ℕ → ℕ) (h : List ChatMsg) (total : ℕ),
      evictLoop oracle 0 h total = Except.error PyErr.valueError) ∧
    (∀ (oracle : ℕ → ℕ) (fuel : ℕ) (h : List ChatMsg) (total : ℕ),
      tokenBudget < total → fuel ≠ 0 → h.length < 3 →
      evictLoop oracle fuel h total = Except.error PyErr.valueError) ∧
    (∀ (p : String) (h : Option (List ChatMsg)) (oracle : ℕ → ℕ) (msg : String),
      getAiResponsePre true p h oracle ≠ PrePhase.returnedError msg) := by
  refine ⟨?_, ?_, fun _ _ _ => rfl, ?_, ?_⟩
  · intro p h oracle hle
    unfold getAiResponsePre
    rw [if_neg (by decide), if_neg hle]
  · intro oracle fuel h h' total hok
    exact evictLoop_ok_head oracle fuel h h' total hok
  · intro oracle fuel h total hover hfuel hlen
    exact evictLoop_shortHistory oracle fuel h total hfuel hover hlen
  · intro p h oracle msg heq
    unfold getAiResponsePre at heq
    rw [if_neg (by decide)] at heq
    repeat' split at heq
    all_goals exact PrePhase.noConfusion heq

theorem c7_eviction_amended_witness :
    getAiResponsePre true "hi" (some [ChatMsg.mk "system" "sys"]) (fun _ => 0)
      = PrePhase.proceed
          [ChatMsg.mk "system" "sys", ChatMsg.mk "user" "hi"] [ChatMsg.mk "system" "sys"] ∧
    evictLoop (fun _ => 0) 10 [ChatMsg.mk "user" "x"] 200000 = Except.error PyErr.valueError ∧
    evictLoop (fun _ => 0) 0 [] 7 = Except.error PyErr.valueError :=
  ⟨c7_eviction_amended.1 "hi" (some [ChatMsg.mk "system" "sys"]) (fun _ => 0) (by decide),
   c7_eviction_amended.2.2.2.1 (fun _ => 0) 10 [ChatMsg.mk "user" "x"] 200000
     (by decide) (by decide) (by decide),
   c7_eviction_amended.2.2.1 (fun _ => 0) [] 7⟩

/-- C10: `get_ai_response` raises instead of returning an error-prefixed
string when the combined content length exceeds the token budget while the
history is absent (`len(None)` → `TypeError`) or holds fewer than three
messages (`random.randint(1, 0)` or `randint(1, -1)` → `ValueError`), in
every case before any provider attempt is made; the concrete single-message
over-budget history exhibits it for every random oracle. -/
theorem c10_overflow_raises :
    (∀ (p : String) (h : List ChatMsg) (oracle : ℕ → ℕ),
      tokenBudget < totalTokens p (some h) → h.length < 3 →
      getAiResponsePre true p (some h) oracle = PrePhase.raised PyErr.valueError) ∧
    (∀ (p : String) (oracle : ℕ → ℕ),
      tokenBudget < totalTokens p none →
      getAiResponsePre true p none oracle = PrePhase.raised PyErr.typeError) ∧
    (∀ oracle : ℕ → ℕ,
      getAiResponsePre true "破碎虚空" (some [longMsg]) oracle
        = PrePhase.raised PyErr.valueError) ∧
    (∀ oracle : ℕ → ℕ,
      getAiResponsePre true longStr none oracle = PrePhase.raised PyErr.typeError) := by
  have hsome : ∀ (p : String) (h : List ChatMsg) (oracle : ℕ → ℕ),
      tokenBudget < totalTokens p (some h) → h.length < 3 →
      getAiResponsePre true p (some h) oracle = PrePhase.raised PyErr.valueError := by
    intro p h oracle hover hlen
    unfold getAiResponsePre
    rw [if_neg (by decide), if_pos hover]
    show (match evictLoop oracle evictionCap h (totalTokens p (some h)) with
      | Except.error e => PrePhase.raised e
      | Except.ok h' => PrePhase.proceed (assembleMessages p (some h)) h') =
        PrePhase.raised PyErr.valueError
    rw [evictLoop_shortHistory oracle evictionCap h (totalTokens p (some h))
        (by norm_num [evictionCap]) hover hlen]
  have hnone : ∀ (p : String) (oracle : ℕ → ℕ),
      tokenBudget < totalTokens p none →
      getAiResponsePre true p none oracle = PrePhase.raised PyErr.typeError := by
    intro p oracle hover
    unfold getAiResponsePre
    rw [if_neg (by decide), if_pos hover]
  refine ⟨hsome, hnone, ?_, ?_⟩
  · intro oracle
    refine hsome "破碎虚空" [longMsg] oracle ?_ (by decide)
    rw [totalTokens_some, List.map_cons, List.map_nil, List.sum_cons, List.sum_nil, longMsg_len]
    rw [show ("破碎虚空".length : ℕ) = 4 from rfl]
    norm_num [tokenBudget]
  · intro oracle
    refine hnone longStr oracle ?_
    rw [totalTokens_none, longStr_len]
    norm_num [tokenBudget]

theorem c10_overflow_raises_witness :
    getAiResponsePre true "破碎虚空" (some [longMsg]) (fun _ => 3)
      = PrePhase.raised PyErr.valueError ∧
    getAiResponsePre true longStr none (fun _ => 3) = PrePhase.raised PyErr.typeError :=
  ⟨c10_overflow_raises.2.2.1 (fun _ => 3), c10_overflow_raises.2.2.2 (fun _ => 3)⟩

/-! ## Live-update redaction claim theorems -/

/-- C8 counterexample: the masking step touches only the **last** line of the
filtered display history, so a session whose redemption code appears in an
earlier line broadcasts the full, unmasked code to spectators — refuting
"any redemption code present in the session is shown masked to its first
and last character only". -/
theorem c8_live_redaction_counterexample :
    payloadDisplayHistory
      { displayHistory := ["获得兑换码: ABCDE 请妥善保管", "【天道回响】明日再来"],
        currentLife := JVal.null, redemptionCode := some "ABCDE", internalHistory := [] }
      = ["获得兑换码: ABCDE 请妥善保管", "【天道回响】明日再来"] ∧
    strContainsSub "获得兑换码: ABCDE 请妥善保管" "ABCDE" = true ∧
    pyReplace "获得兑换码: ABCDE 请妥善保管" "ABCDE" (maskCode "ABCDE")
      = "获得兑换码: A...E 请妥善保管" :=
  ⟨rfl, rfl, rfl⟩

/-- C8 (amended): a spectator's `live_update` payload never contains the
session's `internal_history` (its data dict has exactly the keys
`display_history` and `current_life`); every line it carries descends from a
display-history line whose stripped text does not begin with the
player-input marker `"> "` — either verbatim or, for the final line only,
with the redemption code replaced by its first-and-last-character mask; and
when the code occurs in that final line it is indeed masked there (concrete
instance).  Earlier lines are broadcast without masking, and a line that is
exactly `"> "` (whose stripped form is `">"`) survives the filter. -/
theorem c8_live_redaction_amended :
    (∀ s : SessionView, lookupKey (livePayloadData s) "internal_history" = none ∧
      (livePayloadData s).map Prod.fst = ["display_history", "current_life"]) ∧
    (∀ (s : SessionView) (m : String), m ∈ payloadDisplayHistory s →
      ∃ orig, orig ∈ s.displayHistory ∧ isPlayerInputLine orig = false ∧
        (m = orig ∨ ∃ c, s.redemptionCode = some c ∧ m = pyReplace orig c (maskCode c))) ∧
    (payloadDisplayHistory
      { displayHistory := ["> 破碎虚空", "获得兑换码: ABCDE 请妥善保管"],
        currentLife := JVal.null, redemptionCode := some "ABCDE", internalHistory := [] }
      = ["获得兑换码: A...E 请妥善保管"]) := by
  have hpdNone : ∀ s : SessionView, s.redemptionCode = none →
      payloadDisplayHistory s = filteredDisplayHistory s := by
    intro s h
    unfold payloadDisplayHistory
    rw [h]
  have hpdSome : ∀ (s : SessionView) (c : String), s.redemptionCode = some c →
      payloadDisplayHistory s =
        (if c ≠ "" ∧ filteredDisplayHistory s ≠ [] then
          (filteredDisplayHistory s).dropLast ++
            [if strContainsSub ((filteredDisplayHistory s).getLastD "") c
             then pyReplace ((filteredDisplayHistory s).getLastD "") c (maskCode c)
             else (filteredDisplayHistory s).getLastD ""]
        else filteredDisplayHistory s) := by
    intro s c h
    unfold payloadDisplayHistory
    rw [h]
  refine ⟨fun s => ⟨rfl, rfl⟩, ?_, rfl⟩
  intro s m hm
  cases hrc : s.redemptionCode with
  | none =>
    rw [hpdNone s hrc] at hm
    have h2 := List.mem_filter.mp hm
    exact ⟨m, h2.1, by simpa using h2.2, Or.inl rfl⟩
  | some c =>
    rw [hpdSome s c hrc] at hm
    by_cases hcond : c ≠ "" ∧ filteredDisplayHistory s ≠ []
    · rw [if_pos hcond] at hm
      rcases List.mem_append.mp hm with hm1 | hm2
      · have hmem := List.dropLast_subset _ hm1
        have h2 := List.mem_filter.mp hmem
        exact ⟨m, h2.1, by simpa using h2.2, Or.inl rfl⟩
      · have hm3 := List.mem_singleton.mp hm2
        have hLmem : (filteredDisplayHistory s).getLastD "" ∈ filteredDisplayHistory s :=
          mem_getLastD _ _ hcond.2
        have h2 := List.mem_filter.mp hLmem
        by_cases hsub : strContainsSub ((filteredDisplayHistory s).getLastD "") c = true
        · rw [if_pos hsub] at hm3
          exact ⟨(filteredDisplayHistory s).getLastD "", h2.1, by simpa using h2.2,
            Or.inr ⟨c, rfl, hm3⟩⟩
        · rw [if_neg hsub] at hm3
          exact ⟨(filteredDisplayHistory s).getLastD "", h2.1, by simpa using h2.2,
            Or.inl hm3⟩
    · rw [if_neg hcond] at hm
      have h2 := List.mem_filter.mp hm
      exact ⟨m, h2.1, by simpa using h2.2, Or.inl rfl⟩

theorem c8_live_redaction_amended_witness :
    lookupKey
      (livePayloadData
        { displayHistory := ["你入梦了"], currentLife := JVal.null,
          redemptionCode := none, internalHistory := [ChatMsg.mk "system" "秘"] })
      "internal_history" = none ∧
    (∃ orig, orig ∈ ["你入梦了"] ∧ isPlayerInputLine orig = false ∧
      (("你入梦了" : String) = orig ∨ ∃ c, (none : Option String) = some c ∧
        ("你入梦了" : String) = pyReplace orig c (maskCode c))) :=
  ⟨(c8_live_redaction_amended.1
      { displayHistory := ["你入梦了"], currentLife := JVal.null,
        redemptionCode := none, internalHistory := [ChatMsg.mk "system" "秘"] }).1,
   c8_live_redaction_amended.2.1
      { displayHistory := ["你入梦了"], currentLife := JVal.null,
        redemptionCode := none, internalHistory := [ChatMsg.mk "system" "秘"] }
      "你入梦了" (by decide)⟩

end TenCycles
